import Mathlib

/-!
Shallow embedding of the textoslides server (src/server.js): the
`TemplateAnalyzer` and `PresentationBuilder` classes, together with the
string utilities they rely on.  JavaScript strings are modelled as Lean
`String`s (equivalently their `List Char` of code points); the zip archive
handled by JSZip is modelled as an association list of entry names to
entry contents; the fallible archive-open step is modelled as an
`Except` value.
-/

set_option maxRecDepth 20000

namespace TextoSlides

/-! ## String utilities -/

/-- One global single-character replacement: models JavaScript
`str.replace(/c/g, rep)` for a single-character pattern `c`. -/
def replaceAllChar (c : Char) (rep : List Char) (l : List Char) : List Char :=
  l.foldr (fun x acc => if x = c then rep ++ acc else x :: acc) []

/-- The five XML escape entities used by `PresentationBuilder.escapeXml`. -/
def ampEnt : List Char := ['&', 'a', 'm', 'p', ';']

def ltEnt : List Char := ['&', 'l', 't', ';']

def gtEnt : List Char := ['&', 'g', 't', ';']

def quotEnt : List Char := ['&', 'q', 'u', 'o', 't', ';']

def aposEnt : List Char := ['&', 'a', 'p', 'o', 's', ';']

/-- `PresentationBuilder.escapeXml` on code points: the five global
replacements in source order, `&` first, then `<`, `>`, `"`, `'`. -/
def escapeXmlChars (l : List Char) : List Char :=
  replaceAllChar '\'' aposEnt
    (replaceAllChar '"' quotEnt
      (replaceAllChar '>' gtEnt
        (replaceAllChar '<' ltEnt
          (replaceAllChar '&' ampEnt l))))

/-- `PresentationBuilder.escapeXml`. -/
def escapeXml (s : String) : String := ⟨escapeXmlChars s.data⟩

/-- The per-character action that `escapeXmlChars` turns out to perform. -/
def escChar (c : Char) : List Char :=
  if c = '&' then ampEnt
  else if c = '<' then ltEnt
  else if c = '>' then gtEnt
  else if c = '"' then quotEnt
  else if c = '\'' then aposEnt
  else [c]

/-- XML entity decoding for the five standard entities: the left-to-right
scan an XML parser performs on character data. -/
def unescapeXmlChars : List Char → List Char
  | [] => []
  | c :: rest =>
    if c = '&' then
      if rest.take 4 = ['a', 'm', 'p', ';'] then
        '&' :: unescapeXmlChars (rest.drop 4)
      else if rest.take 3 = ['l', 't', ';'] then
        '<' :: unescapeXmlChars (rest.drop 3)
      else if rest.take 3 = ['g', 't', ';'] then
        '>' :: unescapeXmlChars (rest.drop 3)
      else if rest.take 5 = ['q', 'u', 'o', 't', ';'] then
        '"' :: unescapeXmlChars (rest.drop 5)
      else if rest.take 5 = ['a', 'p', 'o', 's', ';'] then
        '\'' :: unescapeXmlChars (rest.drop 5)
      else
        '&' :: unescapeXmlChars rest
    else
      c :: unescapeXmlChars rest
termination_by l => l.length
decreasing_by all_goals (simp [List.length_drop]; try omega)

/-- XML entity decoding on strings. -/
def unescapeXml (s : String) : String := ⟨unescapeXmlChars s.data⟩

theorem replaceAllChar_nil (c : Char) (rep : List Char) :
    replaceAllChar c rep [] = [] := rfl

theorem replaceAllChar_cons (c : Char) (rep : List Char) (x : Char)
    (t : List Char) :
    replaceAllChar c rep (x :: t) =
      (if x = c then rep else [x]) ++ replaceAllChar c rep t := by
  simp only [replaceAllChar, List.foldr_cons]
  split <;> simp

theorem replaceAllChar_append (c : Char) (rep : List Char)
    (a b : List Char) :
    replaceAllChar c rep (a ++ b) =
      replaceAllChar c rep a ++ replaceAllChar c rep b := by
  induction a with
  | nil => simp [replaceAllChar_nil]
  | cons x t ih =>
    rw [List.cons_append, replaceAllChar_cons, replaceAllChar_cons, ih,
      List.append_assoc]

theorem escapeXmlChars_append (a b : List Char) :
    escapeXmlChars (a ++ b) = escapeXmlChars a ++ escapeXmlChars b := by
  simp only [escapeXmlChars, replaceAllChar_append]

theorem escapeXmlChars_singleton (x : Char) :
    escapeXmlChars [x] = escChar x := by
  by_cases h1 : x = '&'
  · subst h1; rfl
  · by_cases h2 : x = '<'
    · subst h2; rfl
    · by_cases h3 : x = '>'
      · subst h3; rfl
      · by_cases h4 : x = '"'
        · subst h4; rfl
        · by_cases h5 : x = '\''
          · subst h5; rfl
          · simp only [escapeXmlChars, escChar, h1, h2, h3, h4, h5,
              if_false, replaceAllChar_cons, replaceAllChar_nil,
              List.append_nil]

theorem escapeXmlChars_cons (x : Char) (t : List Char) :
    escapeXmlChars (x :: t) = escChar x ++ escapeXmlChars t := by
  have : (x :: t) = [x] ++ t := rfl
  rw [this, escapeXmlChars_append, escapeXmlChars_singleton]

theorem unescape_escChar (x : Char) (r : List Char) :
    unescapeXmlChars (escChar x ++ r) = x :: unescapeXmlChars r := by
  by_cases h1 : x = '&'
  · subst h1; simp [escChar, ampEnt, unescapeXmlChars]
  · by_cases h2 : x = '<'
    · subst h2; simp [escChar, ltEnt, unescapeXmlChars]
    · by_cases h3 : x = '>'
      · subst h3; simp [escChar, gtEnt, unescapeXmlChars]
      · by_cases h4 : x = '"'
        · subst h4; simp [escChar, quotEnt, unescapeXmlChars]
        · by_cases h5 : x = '\''
          · subst h5; simp [escChar, aposEnt, unescapeXmlChars]
          · simp only [escChar, h1, h2, h3, h4, h5, if_false,
              List.singleton_append]
            rw [unescapeXmlChars]
            simp [h1]

theorem unescape_escape_chars (l : List Char) :
    unescapeXmlChars (escapeXmlChars l) = l := by
  induction l with
  | nil =>
    rw [show escapeXmlChars [] = [] from rfl]
    simp [unescapeXmlChars]
  | cons x t ih =>
    rw [escapeXmlChars_cons, unescape_escChar, ih]

/-! ## Archive model

A JSZip archive is modelled as the ordered list of its entries;
`Object.keys(zip.files)` is the list of names in that order and
`zip.file(name)` is the first-match lookup. -/

structure ZipEntry where
  name : String
  content : String
deriving DecidableEq, Repr

/-- The archive: entry names with their contents, in listing order. -/
abbrev Archive : Type := List ZipEntry

/-- `Object.keys(zip.files)`. -/
def zipKeys (z : Archive) : List String :=
  z.map ZipEntry.name

/-- `zip.file(name)` followed by reading the entry's text. -/
def zipFile (z : Archive) (n : String) : Option String :=
  (z.find? (fun e => e.name == n)).map ZipEntry.content

/-- JavaScript `haystack.startsWith(p)` on our string model. -/
def startsWithStr (p n : String) : Bool := p.data.isPrefixOf n.data

/-- JavaScript `haystack.endsWith(p)` on our string model. -/
def endsWithStr (p n : String) : Bool := p.data.isSuffixOf n.data

/-- Substring occurrence check, scanning left to right: models
JavaScript `haystack.includes(needle)`. -/
def containsSub (needle : List Char) : List Char → Bool
  | [] => needle.isEmpty
  | c :: rest => needle.isPrefixOf (c :: rest) || containsSub needle rest

/-- JavaScript `haystack.includes(needle)` on strings. -/
def containsStr (needle hay : String) : Bool := containsSub needle.data hay.data

theorem containsSub_spec (needle hay : List Char) :
    containsSub needle hay = true ↔ needle <:+: hay := by
  induction hay with
  | nil =>
    simp [containsSub, List.isEmpty_iff, List.infix_nil]
  | cons c rest ih =>
    simp only [containsSub, Bool.or_eq_true, List.isPrefixOf_iff_prefix, ih,
      List.infix_cons_iff]

/-- Everything after the last slash: models
`name.split('/').pop()` for the names handled here. -/
def afterLastSlash (l : List Char) : List Char :=
  l.foldl (fun acc c => if c = '/' then [] else acc ++ [c]) []

/-- `name.split('/').pop()` on strings. -/
def basename (n : String) : String := ⟨afterLastSlash n.data⟩

/-- Remove the first occurrence of `pat`: models JavaScript
`str.replace(pat, '')` with a plain-string pattern. -/
def removeFirstSub (pat : List Char) : List Char → List Char
  | [] => []
  | c :: rest =>
    if pat.isPrefixOf (c :: rest) then (c :: rest).drop pat.length
    else c :: removeFirstSub pat rest

/-- The layout name taken by `extractLayouts`:
`layoutFile.split('/').pop().replace('.xml', '')`. -/
def layoutName (n : String) : String :=
  ⟨removeFirstSub ".xml".data (afterLastSlash n.data)⟩

/-- Node's `path.extname`: the extension of the last path component,
from its last dot to the end; empty when there is no dot or the only
dot leads the component (a dotfile). -/
def extname (n : String) : String :=
  let b := afterLastSlash n.data
  match ((List.range b.length).filter (fun i => b.getD i ' ' == '.')).getLast? with
  | Option.none => ""
  | some 0 => ""
  | some i => ⟨b.drop i⟩

/-! ## TemplateAnalyzer -/

structure ColorScheme where
  primary : String
  secondary : String
  accent : String
  background : String
deriving DecidableEq, Repr

structure FontScheme where
  majorFont : String
  minorFont : String
deriving DecidableEq, Repr

structure Theme where
  colorScheme : ColorScheme
  fontScheme : FontScheme
deriving DecidableEq, Repr

structure Layout where
  name : String
  type : String
deriving DecidableEq, Repr

structure ImageInfo where
  name : String
  path : String
  type : String
deriving DecidableEq, Repr

/-- Analysis metadata: either a successful run stamped with the current
time, or the catch-all failure carrying the error message. -/
inductive Metadata where
  | analyzed (timestamp : String)
  | failed (error : String)
deriving DecidableEq, Repr

structure TemplateAnalysis where
  slideLayouts : List Layout
  theme : Theme
  images : List ImageInfo
  metadata : Metadata
deriving DecidableEq, Repr

/-- `TemplateAnalyzer.getDefaultTheme`. -/
def getDefaultTheme : Theme :=
  { colorScheme :=
      { primary := "#1f497d"
        secondary := "#4f81bd"
        accent := "#9cbb58"
        background := "#ffffff" }
    fontScheme := { majorFont := "Calibri", minorFont := "Calibri" } }

/-- `TemplateAnalyzer.getDefaultLayouts`. -/
def getDefaultLayouts : List Layout :=
  [ { name := "title", type := "title" },
    { name := "content", type := "content" },
    { name := "two-column", type := "two-column" } ]

/-- `TemplateAnalyzer.parseTheme`: the "basic theme parsing" stub that
returns a fixed palette and font pair without reading its argument. -/
def parseTheme (_themeXml : String) : Theme :=
  { colorScheme :=
      { primary := "#1f497d"
        secondary := "#4f81bd"
        accent := "#9cbb58"
        background := "#ffffff" }
    fontScheme := { majorFont := "Calibri", minorFont := "Calibri" } }

/-- `TemplateAnalyzer.extractTheme`. -/
def extractTheme (z : Archive) : Theme :=
  match zipFile z "ppt/theme/theme1.xml" with
  | some themeXml => parseTheme themeXml
  | Option.none => getDefaultTheme

/-- `TemplateAnalyzer.determineLayoutType`: ordered substring checks on
the layout's raw XML. -/
def determineLayoutType (xml : String) : String :=
  if containsStr "ctrTitle" xml then "title"
  else if containsStr "body" xml then "content"
  else if containsStr "twoColTx" xml then "two-column"
  else "basic"

/-- The names selected by `extractLayouts`' filter over
`Object.keys(zip.files)`. -/
def layoutKeys (z : Archive) : List String :=
  (zipKeys z).filter
    (fun n => startsWithStr "ppt/slideLayouts/" n && endsWithStr ".xml" n)

/-- `TemplateAnalyzer.extractLayouts`: the filtered names truncated to
the first five, each classified; the fixed default list when none are
found. -/
def extractLayouts (z : Archive) : List Layout :=
  let layouts := ((layoutKeys z).take 5).map (fun n =>
    { name := layoutName n,
      type := determineLayoutType ((zipFile z n).getD "") : Layout })
  if layouts.length > 0 then layouts else getDefaultLayouts

/-- JavaScript `str.toLowerCase()`: character-wise lowering. -/
def lowerStr (s : String) : String := ⟨s.data.map Char.toLower⟩

/-- The media-name test of `extractImages`: prefix `ppt/media/` plus the
case-insensitive extension regex `\.(png|jpg|jpeg|gif)$`. -/
def isMediaImageName (n : String) : Bool :=
  startsWithStr "ppt/media/" n &&
    (endsWithStr ".png" (lowerStr n) || endsWithStr ".jpg" (lowerStr n) ||
      endsWithStr ".jpeg" (lowerStr n) || endsWithStr ".gif" (lowerStr n))

/-- The image record built for one matching media entry. -/
def mkImage (f : String) : ImageInfo :=
  { name := basename f, path := f, type := lowerStr (extname f) }

/-- `TemplateAnalyzer.extractImages`. -/
def extractImages (z : Archive) : List ImageInfo :=
  ((zipKeys z).filter isMediaImageName).map mkImage

/-- `TemplateAnalyzer.analyzeTemplate`: the archive-open step (JSZip's
`loadAsync`) is modelled by an `Except` input — `ok` with the listed
entries, or `error` with the thrown message; `now` is the timestamp the
success path records. -/
def analyzeTemplate (loadResult : Except String Archive) (now : String) :
    TemplateAnalysis :=
  match loadResult with
  | .ok z =>
    { slideLayouts := extractLayouts z
      theme := extractTheme z
      images := extractImages z
      metadata := .analyzed now }
  | .error msg =>
    { slideLayouts := []
      theme := getDefaultTheme
      images := []
      metadata := .failed msg }

/-! ## PresentationBuilder

The produced package is modelled as the ordered list of `zip.file`
calls: entry names paired with entry contents. -/

/-- A slide's `content` field: a JSON array of strings, a bare string,
or absent. -/
inductive SlideContent where
  | items (l : List String)
  | text (s : String)
  | missing
deriving DecidableEq, Repr

structure Slide where
  slideNumber : Int
  type : String
  title : String
  content : SlideContent
  notes : String
deriving DecidableEq, Repr

structure SlideStructure where
  totalSlides : Int
  slides : List Slide
deriving DecidableEq, Repr

/-- The content text computed by `generateSlideXml`:
`Array.isArray(slide.content) ? slide.content.join('\n• ') :
(slide.content || '')`. -/
def slideContentText : SlideContent → String
  | .items l => String.intercalate "\n• " l
  | .text s => s
  | .missing => ""

/-- The title text computed by `generateSlideXml`:
`slide.title || ` + "`Slide ${slideNumber}`" + `. -/
def effectiveTitle (slide : Slide) (slideNumber : Nat) : String :=
  if slide.title = "" then "Slide " ++ toString slideNumber else slide.title

/-- The slide template up to the title run's opening `<a:t>`. -/
def slideXmlA : String :=
  "<?xml version=\"1.0\" encoding=\"UTF-8\" standalone=\"yes\"?>\n<p:sld xmlns:a=\"http://schemas.openxmlformats.org/drawingml/2006/main\" xmlns:r=\"http://schemas.openxmlformats.org/officeDocument/2006/relationships\" xmlns:p=\"http://schemas.openxmlformats.org/presentationml/2006/main\">\n<p:cSld>\n<p:spTree>\n<p:nvGrpSpPr>\n<p:cNvPr id=\"1\" name=\"\"/>\n<p:cNvGrpSpPr/>\n<p:nvPr/>\n</p:nvGrpSpPr>\n<p:grpSpPr>\n<a:xfrm>\n<a:off x=\"0\" y=\"0\"/>\n<a:ext cx=\"0\" cy=\"0\"/>\n<a:chOff x=\"0\" y=\"0\"/>\n<a:chExt cx=\"0\" cy=\"0\"/>\n</a:xfrm>\n</p:grpSpPr>\n<p:sp>\n<p:nvSpPr>\n<p:cNvPr id=\"2\" name=\"Title\"/>\n<p:cNvSpPr>\n<a:spLocks noGrp=\"1\"/>\n</p:cNvSpPr>\n<p:nvPr>\n<p:ph type=\"title\"/>\n</p:nvPr>\n</p:nvSpPr>\n<p:spPr/>\n<p:txBody>\n<a:bodyPr/>\n<a:lstStyle/>\n<a:p>\n<a:r>\n<a:rPr lang=\"en-US\" sz=\"3200\" b=\"1\">\n<a:solidFill>\n<a:schemeClr val=\"tx1\"/>\n</a:solidFill>\n<a:latin typeface=\"Calibri\"/>\n</a:rPr>\n<a:t>"

/-- The slide template between the title text and the conditional body
shape. -/
def slideXmlB : String :=
  "</a:t>\n</a:r>\n</a:p>\n</a:txBody>\n</p:sp>\n"

/-- The body-shape template up to its `<a:t>` and the bullet glyph. -/
def bodyXmlA : String :=
  "<p:sp>\n<p:nvSpPr>\n<p:cNvPr id=\"3\" name=\"Content\"/>\n<p:cNvSpPr>\n<a:spLocks noGrp=\"1\"/>\n</p:cNvSpPr>\n<p:nvPr>\n<p:ph type=\"body\"/>\n</p:nvPr>\n</p:nvSpPr>\n<p:spPr/>\n<p:txBody>\n<a:bodyPr/>\n<a:lstStyle/>\n<a:p>\n<a:r>\n<a:rPr lang=\"en-US\" sz=\"2000\">\n<a:solidFill>\n<a:schemeClr val=\"tx1\"/>\n</a:solidFill>\n<a:latin typeface=\"Calibri\"/>\n</a:rPr>\n<a:t>"

/-- The body-shape template after the body text. -/
def bodyXmlB : String :=
  "</a:t>\n</a:r>\n</a:p>\n</a:txBody>\n</p:sp>"

/-- The slide template after the conditional body shape. -/
def slideXmlC : String :=
  "\n</p:spTree>\n</p:cSld>\n<p:clrMapOvr>\n<a:masterClrMapping/>\n</p:clrMapOvr>\n</p:sld>"

/-- The conditional body shape:
"`${content ? `...<a:t>• ${this.escapeXml(content)}</a:t>...` : ''}`". -/
def bodyShapeXml (content : String) : String :=
  bodyXmlA ++ "• " ++ escapeXml content ++ bodyXmlB

/-- `PresentationBuilder.generateSlideXml`. -/
def generateSlideXml (slide : Slide) (slideNumber : Nat) : String :=
  let title := effectiveTitle slide slideNumber
  let content := slideContentText slide.content
  slideXmlA ++ escapeXml title ++ slideXmlB ++
    (if content = "" then "" else bodyShapeXml content) ++ slideXmlC

/-- One `<Override .../>` line of the content-types manifest, for the
slide at 0-based position `i`. -/
def ctOverrideLine (i : Nat) : String :=
  "<Override PartName=\"/ppt/slides/slide" ++ toString (i + 1) ++
    ".xml\" ContentType=\"application/vnd.openxmlformats-officedocument.presentationml.slide+xml\"/>"

/-- The override lines of the content-types manifest. -/
def ctOverrideLines (s : SlideStructure) : List String :=
  (List.range s.slides.length).map ctOverrideLine

/-- `[Content_Types].xml`. -/
def contentTypesXml (s : SlideStructure) : String :=
  "<?xml version=\"1.0\" encoding=\"UTF-8\" standalone=\"yes\"?>\n<Types xmlns=\"http://schemas.openxmlformats.org/package/2006/content-types\">\n<Default Extension=\"rels\" ContentType=\"application/vnd.openxmlformats-package.relationships+xml\"/>\n<Default Extension=\"xml\" ContentType=\"application/xml\"/>\n<Override PartName=\"/ppt/presentation.xml\" ContentType=\"application/vnd.openxmlformats-officedocument.presentationml.presentation.main+xml\"/>\n"
    ++ String.intercalate "\n" (ctOverrideLines s) ++ "\n</Types>"

/-- `_rels/.rels`. -/
def rootRelsXml : String :=
  "<?xml version=\"1.0\" encoding=\"UTF-8\" standalone=\"yes\"?>\n<Relationships xmlns=\"http://schemas.openxmlformats.org/package/2006/relationships\">\n<Relationship Id=\"rId1\" Type=\"http://schemas.openxmlformats.org/officeDocument/2006/relationships/officeDocument\" Target=\"ppt/presentation.xml\"/>\n</Relationships>"

/-- One `<p:sldId .../>` line, for the slide at 0-based position `i`. -/
def sldIdLine (i : Nat) : String :=
  "<p:sldId id=\"" ++ toString (256 + i) ++ "\" r:id=\"rId" ++
    toString (i + 1) ++ "\"/>"

/-- The slide-ID lines of the presentation part. -/
def sldIdLines (s : SlideStructure) : List String :=
  (List.range s.slides.length).map sldIdLine

/-- `ppt/presentation.xml`. -/
def presentationXml (s : SlideStructure) : String :=
  "<?xml version=\"1.0\" encoding=\"UTF-8\" standalone=\"yes\"?>\n<p:presentation xmlns:p=\"http://schemas.openxmlformats.org/presentationml/2006/main\" xmlns:r=\"http://schemas.openxmlformats.org/officeDocument/2006/relationships\">\n<p:sldIdLst>\n"
    ++ String.intercalate "\n" (sldIdLines s) ++
    "\n</p:sldIdLst>\n<p:sldSz cx=\"9144000\" cy=\"6858000\" type=\"screen4x3\"/>\n</p:presentation>"

/-- One `<Relationship .../>` line, for the slide at 0-based position
`i`. -/
def relLine (i : Nat) : String :=
  "<Relationship Id=\"rId" ++ toString (i + 1) ++
    "\" Type=\"http://schemas.openxmlformats.org/officeDocument/2006/relationships/slide\" Target=\"slides/slide"
    ++ toString (i + 1) ++ ".xml\"/>"

/-- The relationship lines of the presentation relationships part. -/
def relLines (s : SlideStructure) : List String :=
  (List.range s.slides.length).map relLine

/-- `ppt/_rels/presentation.xml.rels`. -/
def presRelsXml (s : SlideStructure) : String :=
  "<?xml version=\"1.0\" encoding=\"UTF-8\" standalone=\"yes\"?>\n<Relationships xmlns=\"http://schemas.openxmlformats.org/package/2006/relationships\">\n"
    ++ String.intercalate "\n" (relLines s) ++ "\n</Relationships>"

/-- `PresentationBuilder.addBasicStructure`: the four fixed entries, in
call order. -/
def addBasicStructure (s : SlideStructure) : List (String × String) :=
  [ ("[Content_Types].xml", contentTypesXml s),
    ("_rels/.rels", rootRelsXml),
    ("ppt/presentation.xml", presentationXml s),
    ("ppt/_rels/presentation.xml.rels", presRelsXml s) ]

/-- The name of the slide entry at 0-based position `i`. -/
def slideFileName (i : Nat) : String :=
  "ppt/slides/slide" ++ toString (i + 1) ++ ".xml"

/-- `PresentationBuilder.addSlides`: one entry per slide, numbered by
position. -/
def addSlides (s : SlideStructure) : List (String × String) :=
  s.slides.enum.map (fun p => (slideFileName p.1, generateSlideXml p.2 (p.1 + 1)))

/-- `PresentationBuilder.buildPresentation`: the package entries, in
the order they are written. -/
def buildPresentation (s : SlideStructure) : List (String × String) :=
  addBasicStructure s ++ addSlides s

/-! ## Helper lemmas -/

theorem extractTheme_eq_default (z : Archive) :
    extractTheme z = getDefaultTheme := by
  unfold extractTheme
  cases zipFile z "ppt/theme/theme1.xml" <;> rfl

theorem extractLayouts_ne_nil (z : Archive) : extractLayouts z ≠ [] := by
  unfold extractLayouts
  simp only []
  split
  · next h =>
    intro hc
    rw [hc] at h
    simp at h
  · decide

theorem lt_gt_not_mem_escChar (x : Char) :
    '<' ∉ escChar x ∧ '>' ∉ escChar x := by
  unfold escChar
  by_cases h1 : x = '&'
  · subst h1; decide
  by_cases h2 : x = '<'
  · subst h2; decide
  by_cases h3 : x = '>'
  · subst h3; decide
  by_cases h4 : x = '"'
  · subst h4; decide
  by_cases h5 : x = '\''
  · subst h5; decide
  simp only [h1, h2, h3, h4, h5, if_false, List.mem_singleton]
  exact ⟨fun hq => h2 hq.symm, fun hq => h3 hq.symm⟩

/-- Escaped text never contains a raw angle bracket: `<` and `>` are
always replaced by entities. -/
theorem escape_no_angle (l : List Char) :
    '<' ∉ escapeXmlChars l ∧ '>' ∉ escapeXmlChars l := by
  induction l with
  | nil =>
    rw [show escapeXmlChars [] = [] from rfl]
    exact ⟨List.not_mem_nil _, List.not_mem_nil _⟩
  | cons x t ih =>
    rw [escapeXmlChars_cons]
    constructor <;> rw [List.mem_append]
    · rintro (h | h)
      · exact (lt_gt_not_mem_escChar x).1 h
      · exact ih.1 h
    · rintro (h | h)
      · exact (lt_gt_not_mem_escChar x).2 h
      · exact ih.2 h

/-- An occurrence of `m` inside `a ++ b` lies inside `a`, inside `b`, or
straddles the boundary as a nonempty suffix of `a` glued to a nonempty
prefix of `b`. -/
theorem occurrence_split {α : Type} {m a b : List α}
    (h : m <:+: a ++ b) :
    m <:+: a ∨ m <:+: b ∨
      ∃ m₁ m₂, m = m₁ ++ m₂ ∧ m₁ ≠ [] ∧ m₂ ≠ [] ∧ m₁ <:+ a ∧ m₂ <+: b := by
  obtain ⟨u, t, hut⟩ := h
  have hdrop : m ++ t = (a ++ b).drop u.length := by
    rw [← hut, List.append_assoc, List.drop_left]
  by_cases hcase1 : u.length + m.length ≤ a.length
  · left
    have hle : u.length ≤ a.length := by omega
    rw [List.drop_append_of_le_length hle] at hdrop
    have hm : m <+: a.drop u.length := by
      apply List.prefix_of_prefix_length_le ⟨t, hdrop⟩
        (List.prefix_append _ _)
      simp only [List.length_drop]
      omega
    exact hm.isInfix.trans (List.drop_suffix _ _).isInfix
  · by_cases hcase2 : a.length ≤ u.length
    · right; left
      have hb : (a ++ b).drop u.length = b.drop (u.length - a.length) := by
        rw [List.drop_append_eq_append_drop, List.drop_eq_nil_of_le hcase2,
          List.nil_append]
      rw [hb] at hdrop
      exact (show m <+: b.drop (u.length - a.length) from
        ⟨t, hdrop⟩).isInfix.trans (List.drop_suffix _ _).isInfix
    · right; right
      have hlt1 : a.length < u.length + m.length := by omega
      have hlt2 : u.length < a.length := by omega
      have hle : u.length ≤ a.length := Nat.le_of_lt hlt2
      rw [List.drop_append_of_le_length hle] at hdrop
      have hlen := congrArg List.length hdrop
      simp only [List.length_append, List.length_drop] at hlen
      refine ⟨a.drop u.length,
        b.take (m.length - (a.length - u.length)), ?_, ?_, ?_,
        List.drop_suffix _ _, List.take_prefix _ _⟩
      · have hm : m = (m ++ t).take m.length := (List.take_left m t).symm
        rw [hdrop, List.take_append_eq_append_take, List.length_drop] at hm
        rw [List.take_of_length_le
          (by simp only [List.length_drop]; omega :
            (a.drop u.length).length ≤ m.length)] at hm
        exact hm
      · intro hnil
        have := congrArg List.length hnil
        simp only [List.length_drop, List.length_nil] at this
        omega
      · intro hnil
        have := congrArg List.length hnil
        simp only [List.length_take, List.length_nil] at this
        omega

theorem getLast?_of_suf {m x : List Char} (h : m <:+ x)
    (hne : m ≠ []) : m.getLast? = x.getLast? := by
  obtain ⟨u, rfl⟩ := h
  rw [List.getLast?_append]
  cases hm : m.getLast? with
  | none => exact absurd (List.getLast?_eq_none_iff.mp hm) hne
  | some c => rfl

theorem head?_of_pre {m x : List Char} (h : m <+: x)
    (hne : m ≠ []) : m.head? = x.head? := by
  obtain ⟨u, rfl⟩ := h
  rw [List.head?_append]
  cases hm : m.head? with
  | none => exact absurd (List.head?_eq_none_iff.mp hm) hne
  | some c => rfl

/-- The static slide template around the escaped title text cannot host
the body-placeholder marker when no body shape is emitted: the marker
does not occur in the fixed parts and cannot straddle into the escaped
title, which contains no raw angle brackets. -/
theorem body_marker_absent (e : List Char)
    (he1 : '<' ∉ e) :
    ¬ ("<p:ph type=\"body\"/>".data <:+:
        slideXmlA.data ++ (e ++ (slideXmlB.data ++ slideXmlC.data))) := by
  intro hinf
  rcases occurrence_split hinf with h | h | hstraddle
  · rw [← containsSub_spec] at h
    have hfalse : containsSub "<p:ph type=\"body\"/>".data slideXmlA.data
        = false := by decide
    rw [hfalse] at h
    exact Bool.false_ne_true h
  · rcases occurrence_split h with h2 | h2 | hstraddle2
    · have hmem : '<' ∈ "<p:ph type=\"body\"/>".data := by decide
      exact he1 (h2.subset hmem)
    · rw [← containsSub_spec] at h2
      have hfalse : containsSub "<p:ph type=\"body\"/>".data
          (slideXmlB.data ++ slideXmlC.data) = false := by decide
      rw [hfalse] at h2
      exact Bool.false_ne_true h2
    · obtain ⟨m₁, m₂, hm12, hne1, _, hsuf, _⟩ := hstraddle2
      have hpre1 : m₁ <+: "<p:ph type=\"body\"/>".data :=
        hm12 ▸ List.prefix_append m₁ m₂
      have hh : m₁.head? = some '<' := by
        rw [head?_of_pre hpre1 hne1]
        decide
      have hmem : '<' ∈ m₁ := List.mem_of_mem_head? (by rw [hh]; rfl)
      exact he1 (hsuf.sublist.subset hmem)
  · obtain ⟨m₁, m₂, hm12, hne1, hne2, hsuf, _⟩ := hstraddle
    have hlast : m₁.getLast? = some '>' := by
      rw [getLast?_of_suf hsuf hne1]
      decide
    have htake : m₁ = ("<p:ph type=\"body\"/>".data).take m₁.length := by
      rw [hm12, List.take_left]
    have hlen1 : 0 < m₁.length := List.length_pos.mpr hne1
    have hlen2 : m₁.length ≤ 18 := by
      have h19 : ("<p:ph type=\"body\"/>".data).length = 19 := by decide
      have hp2 : 0 < m₂.length := List.length_pos.mpr hne2
      have hsum := congrArg List.length hm12
      rw [List.length_append] at hsum
      omega
    have hforall : ∀ i : Fin 19, 1 ≤ i.val →
        ((("<p:ph type=\"body\"/>".data).take i.val).getLast? = some '>') →
        False := by decide
    exact hforall ⟨m₁.length, by omega⟩ hlen1 (by rw [← htake]; exact hlast)

theorem startsWith_slideFileName (i : Nat) :
    startsWithStr "ppt/slides/" (slideFileName i) = true := by
  unfold startsWithStr slideFileName
  rw [List.isPrefixOf_iff_prefix]
  have h : ("ppt/slides/slide" ++ toString (i + 1) ++ ".xml").data =
      "ppt/slides/slide".data ++ ((toString (i + 1)).data ++ ".xml".data) := by
    simp [List.append_assoc]
  rw [h]
  exact List.IsPrefix.trans (by decide) (List.prefix_append _ _)

theorem filter_addBasicStructure (s : SlideStructure) :
    (addBasicStructure s).filter
      (fun e => startsWithStr "ppt/slides/" e.1) = [] := rfl

theorem addSlides_map_fst (s : SlideStructure) :
    (addSlides s).map Prod.fst =
      (List.range s.slides.length).map slideFileName := by
  unfold addSlides
  rw [List.map_map]
  have hcomp : (Prod.fst ∘ fun p : Nat × Slide =>
      (slideFileName p.1, generateSlideXml p.2 (p.1 + 1))) =
      slideFileName ∘ Prod.fst := rfl
  rw [hcomp, ← List.map_map, List.enum_map_fst]

theorem filter_buildPresentation (s : SlideStructure) :
    (buildPresentation s).filter
      (fun e => startsWithStr "ppt/slides/" e.1) = addSlides s := by
  unfold buildPresentation
  rw [List.filter_append, filter_addBasicStructure, List.nil_append]
  unfold addSlides
  rw [List.filter_map]
  have hcomp : ((fun e : String × String => startsWithStr "ppt/slides/" e.1) ∘
      (fun p : Nat × Slide =>
        (slideFileName p.1, generateSlideXml p.2 (p.1 + 1)))) =
      fun p : Nat × Slide => startsWithStr "ppt/slides/" (slideFileName p.1) :=
    rfl
  rw [hcomp]
  have hall : List.filter
      (fun p : Nat × Slide => startsWithStr "ppt/slides/" (slideFileName p.1))
      s.slides.enum = s.slides.enum :=
    List.filter_eq_self.mpr (fun a _ => startsWith_slideFileName a.1)
  rw [hall]

/-! ## Claims -/

/-- C3: escaping a title/content string for the five XML metacharacters
(`&` first) and then XML-entity-decoding the emitted text yields back the
original string exactly. -/
theorem claim_C3_escape_roundtrip (s : String) :
    unescapeXml (escapeXml s) = s := by
  show String.mk (unescapeXmlChars (escapeXmlChars s.data)) = s
  rw [unescape_escape_chars]

/-- C4: theme extraction returns the same fixed palette and font pair for
every input archive, whether or not the theme entry exists or parses. -/
theorem claim_C4_theme_constant :
    (∀ z : Archive, extractTheme z = getDefaultTheme) ∧
    (∀ z₁ z₂ : Archive, extractTheme z₁ = extractTheme z₂) ∧
    getDefaultTheme =
      { colorScheme :=
          { primary := "#1f497d", secondary := "#4f81bd",
            accent := "#9cbb58", background := "#ffffff" }
        fontScheme := { majorFont := "Calibri", minorFont := "Calibri" } } :=
  ⟨extractTheme_eq_default,
   fun z₁ z₂ =>
     (extractTheme_eq_default z₁).trans (extractTheme_eq_default z₂).symm,
   rfl⟩

/-- C2: the analyzer is a total function of the archive-open outcome:
an open failure yields exactly the documented error result, a success
yields a result whose four fields are the three sub-step extractions
(theme always the default, layouts never empty) plus success metadata. -/
theorem claim_C2_analyzer_total (r : Except String Archive) (now : String) :
    (∀ msg, r = .error msg →
      analyzeTemplate r now =
        { slideLayouts := [], theme := getDefaultTheme, images := [],
          metadata := .failed msg }) ∧
    (∀ z, r = .ok z →
      analyzeTemplate r now =
        { slideLayouts := extractLayouts z, theme := getDefaultTheme,
          images := extractImages z, metadata := .analyzed now } ∧
      extractLayouts z ≠ []) := by
  constructor
  · rintro msg rfl; rfl
  · rintro z rfl
    refine ⟨?_, extractLayouts_ne_nil z⟩
    show ({ slideLayouts := extractLayouts z, theme := extractTheme z,
            images := extractImages z,
            metadata := .analyzed now } : TemplateAnalysis) = _
    rw [extractTheme_eq_default]

theorem claim_C2_analyzer_total_witness :
    analyzeTemplate (Except.error "not a zip") "t0" =
      { slideLayouts := [], theme := getDefaultTheme, images := [],
        metadata := .failed "not a zip" } ∧
    analyzeTemplate (Except.ok ([] : Archive)) "t0" =
      { slideLayouts := getDefaultLayouts, theme := getDefaultTheme,
        images := [], metadata := .analyzed "t0" } := by
  constructor
  · exact (claim_C2_analyzer_total _ _).1 "not a zip" rfl
  · have h := ((claim_C2_analyzer_total (Except.ok ([] : Archive)) "t0").2
      [] rfl).1
    rw [h]
    rfl

/-- C7: layout classification is by ordered substring checks —
`ctrTitle` wins over `body`, then `body`, then `twoColTx`, else
`basic`. -/
theorem claim_C7_layout_type (xml : String) :
    (containsStr "ctrTitle" xml = true →
      determineLayoutType xml = "title") ∧
    (containsStr "ctrTitle" xml = false → containsStr "body" xml = true →
      determineLayoutType xml = "content") ∧
    (containsStr "ctrTitle" xml = false → containsStr "body" xml = false →
      containsStr "twoColTx" xml = true →
      determineLayoutType xml = "two-column") ∧
    (containsStr "ctrTitle" xml = false → containsStr "body" xml = false →
      containsStr "twoColTx" xml = false →
      determineLayoutType xml = "basic") := by
  unfold determineLayoutType
  refine ⟨?_, ?_, ?_, ?_⟩ <;> intros <;> simp_all

theorem claim_C7_layout_type_witness :
    determineLayoutType "xx ctrTitle yy body" = "title" ∧
    determineLayoutType "xx body yy" = "content" ∧
    determineLayoutType "xx twoColTx" = "two-column" ∧
    determineLayoutType "zz" = "basic" :=
  ⟨(claim_C7_layout_type _).1 (by decide),
   (claim_C7_layout_type _).2.1 (by decide) (by decide),
   (claim_C7_layout_type _).2.2.1 (by decide) (by decide) (by decide),
   (claim_C7_layout_type _).2.2.2 (by decide) (by decide) (by decide)⟩

/-- C8: the analyzer returns at most 5 layouts, and an archive with 8 or
more layout entries yields exactly 5. -/
theorem claim_C8_layout_cap (z : Archive) :
    (extractLayouts z).length ≤ 5 ∧
    (8 ≤ (layoutKeys z).length → (extractLayouts z).length = 5) := by
  unfold extractLayouts
  simp only []
  constructor
  · split
    · simp only [List.length_map, List.length_take]
      omega
    · decide
  · intro h8
    split
    · simp only [List.length_map, List.length_take]
      omega
    · next h =>
      exfalso
      simp only [List.length_map, List.length_take, gt_iff_lt,
        Nat.lt_min, not_and, not_lt, Nat.le_zero] at h
      omega

/-- An archive listing eight slide-layout entries. -/
def eightLayoutArchive : Archive :=
  [ { name := "ppt/slideLayouts/slideLayout1.xml", content := "ctrTitle" },
    { name := "ppt/slideLayouts/slideLayout2.xml", content := "body" },
    { name := "ppt/slideLayouts/slideLayout3.xml", content := "twoColTx" },
    { name := "ppt/slideLayouts/slideLayout4.xml", content := "zz" },
    { name := "ppt/slideLayouts/slideLayout5.xml", content := "body" },
    { name := "ppt/slideLayouts/slideLayout6.xml", content := "body" },
    { name := "ppt/slideLayouts/slideLayout7.xml", content := "body" },
    { name := "ppt/slideLayouts/slideLayout8.xml", content := "body" } ]

theorem claim_C8_layout_cap_witness :
    8 ≤ (layoutKeys eightLayoutArchive).length ∧
    (extractLayouts eightLayoutArchive).length = 5 :=
  ⟨by decide, (claim_C8_layout_cap eightLayoutArchive).2 (by decide)⟩

/-- C9: an archive with zero layout entries yields exactly the fixed
3-entry default layout list. -/
theorem claim_C9_default_layouts (z : Archive)
    (h : layoutKeys z = []) :
    extractLayouts z =
      [ { name := "title", type := "title" },
        { name := "content", type := "content" },
        { name := "two-column", type := "two-column" } ] := by
  unfold extractLayouts
  rw [h]
  rfl

theorem claim_C9_default_layouts_witness :
    layoutKeys ([] : Archive) = [] ∧
    extractLayouts ([] : Archive) =
      [ { name := "title", type := "title" },
        { name := "content", type := "content" },
        { name := "two-column", type := "two-column" } ] :=
  ⟨rfl, claim_C9_default_layouts [] rfl⟩

/-- C10: the image scan includes exactly the entries under `ppt/media/`
whose lowercased name ends in one of the four image extensions (so the
match is case-insensitive), and each record carries the entry basename,
the full path, and the lowercased `extname` extension. -/
theorem claim_C10_image_scan (z : Archive) (r : ImageInfo) :
    r ∈ extractImages z ↔
      ∃ n, n ∈ zipKeys z ∧ startsWithStr "ppt/media/" n = true ∧
        (endsWithStr ".png" (lowerStr n) || endsWithStr ".jpg" (lowerStr n) ||
          endsWithStr ".jpeg" (lowerStr n) ||
          endsWithStr ".gif" (lowerStr n)) = true ∧
        r = { name := basename n, path := n,
              type := lowerStr (extname n) } := by
  unfold extractImages isMediaImageName mkImage
  simp only [List.mem_map, List.mem_filter, Bool.and_eq_true]
  constructor
  · rintro ⟨n, ⟨hmem, h1, h2⟩, rfl⟩
    exact ⟨n, hmem, h1, h2, rfl⟩
  · rintro ⟨n, hmem, h1, h2, rfl⟩
    exact ⟨n, ⟨hmem, h1, h2⟩, rfl⟩

/-- C1: for a structure with N >= 1 slides the package has exactly the N
slide entries `ppt/slides/slide1.xml` .. `slideN.xml` in order, the
content-types manifest one override per slide part, the slide-ID list N
entries with IDs 256..256+N-1 where position i carries `rId{i+1}`, and
the relationships file N entries where `rId{i+1}` targets
`slides/slide{i+1}.xml`. -/
theorem claim_C1_package_shape (s : SlideStructure)
    (_hN : 1 ≤ s.slides.length) :
    ((buildPresentation s).filter
        (fun e => startsWithStr "ppt/slides/" e.1)).map Prod.fst =
      (List.range s.slides.length).map slideFileName ∧
    ((buildPresentation s).filter
        (fun e => startsWithStr "ppt/slides/" e.1)).length =
      s.slides.length ∧
    (ctOverrideLines s).length = s.slides.length ∧
    (∀ i, i < s.slides.length →
      (ctOverrideLines s).getD i "" =
        "<Override PartName=\"/" ++ slideFileName i ++
          "\" ContentType=\"application/vnd.openxmlformats-officedocument.presentationml.slide+xml\"/>") ∧
    (sldIdLines s).length = s.slides.length ∧
    (∀ i, i < s.slides.length →
      (sldIdLines s).getD i "" =
        "<p:sldId id=\"" ++ toString (256 + i) ++ "\" r:id=\"rId" ++
          toString (i + 1) ++ "\"/>") ∧
    (relLines s).length = s.slides.length ∧
    (∀ i, i < s.slides.length →
      (relLines s).getD i "" =
        "<Relationship Id=\"rId" ++ toString (i + 1) ++
          "\" Type=\"http://schemas.openxmlformats.org/officeDocument/2006/relationships/slide\" Target=\"slides/slide"
          ++ toString (i + 1) ++ ".xml\"/>") := by
  refine ⟨?_, ?_, ?_, ?_, ?_, ?_, ?_, ?_⟩
  · rw [filter_buildPresentation]
    exact addSlides_map_fst s
  · rw [filter_buildPresentation]
    unfold addSlides
    rw [List.length_map, List.enum_length]
  · simp [ctOverrideLines]
  · intro i hi
    simp only [ctOverrideLines, List.getD_eq_getElem?_getD,
      List.getElem?_map, List.getElem?_range hi, Option.map_some,
      Option.getD_some]
    unfold ctOverrideLine slideFileName
    have h1 : ("<Override PartName=\"/ppt/slides/slide" : String) =
        "<Override PartName=\"/" ++ "ppt/slides/slide" := by decide
    have h2 : (".xml\" ContentType=\"application/vnd.openxmlformats-officedocument.presentationml.slide+xml\"/>" : String) =
        ".xml" ++ "\" ContentType=\"application/vnd.openxmlformats-officedocument.presentationml.slide+xml\"/>" := by
      decide
    rw [h1, h2]
    simp only [String.append_assoc]
    rfl
  · simp [sldIdLines]
  · intro i hi
    simp only [sldIdLines, List.getD_eq_getElem?_getD, List.getElem?_map,
      List.getElem?_range hi, Option.map_some, Option.getD_some]
    rfl
  · simp [relLines]
  · intro i hi
    simp only [relLines, List.getD_eq_getElem?_getD, List.getElem?_map,
      List.getElem?_range hi, Option.map_some, Option.getD_some]
    rfl

/-- The end-to-end two-slide structure of the spec's scenario. -/
def twoSlideStructure : SlideStructure :=
  { totalSlides := 2,
    slides :=
      [ { slideNumber := 1, type := "title", title := "Q1 Report",
          content := .items [], notes := "" },
        { slideNumber := 2, type := "content", title := "Highlights",
          content := .items ["Revenue up 10%", "New markets"],
          notes := "" } ] }

theorem claim_C1_package_shape_witness :
    1 ≤ twoSlideStructure.slides.length ∧
    ((buildPresentation twoSlideStructure).filter
        (fun e => startsWithStr "ppt/slides/" e.1)).map Prod.fst =
      ["ppt/slides/slide1.xml", "ppt/slides/slide2.xml"] ∧
    (sldIdLines twoSlideStructure).getD 0 "" =
      "<p:sldId id=\"256\" r:id=\"rId1\"/>" ∧
    (sldIdLines twoSlideStructure).getD 1 "" =
      "<p:sldId id=\"257\" r:id=\"rId2\"/>" ∧
    (relLines twoSlideStructure).getD 1 "" =
      "<Relationship Id=\"rId2\" Type=\"http://schemas.openxmlformats.org/officeDocument/2006/relationships/slide\" Target=\"slides/slide2.xml\"/>" := by
  have h := claim_C1_package_shape twoSlideStructure (by decide)
  refine ⟨by decide, ?_, ?_, ?_, ?_⟩
  · rw [h.1]
    decide
  · exact (h.2.2.2.2.2.1 0 (by decide)).trans (by decide)
  · exact (h.2.2.2.2.2.1 1 (by decide)).trans (by decide)
  · exact (h.2.2.2.2.2.2.2 1 (by decide)).trans (by decide)

/-- C5: the builder's output is determined solely by the slides
sequence — `totalSlides` never changes the package, file names are the
positional `1..N` numbering, and a slide's own `slideNumber` field never
affects its generated XML. -/
theorem claim_C5_position_only (s₁ s₂ : SlideStructure)
    (sl₁ sl₂ : Slide) (n : Nat)
    (hs : s₁.slides = s₂.slides) (ht : sl₁.title = sl₂.title)
    (hc : sl₁.content = sl₂.content) :
    buildPresentation s₁ = buildPresentation s₂ ∧
    (addSlides s₁).map Prod.fst =
      (List.range s₁.slides.length).map slideFileName ∧
    generateSlideXml sl₁ n = generateSlideXml sl₂ n := by
  refine ⟨?_, ?_, ?_⟩
  · unfold buildPresentation addBasicStructure contentTypesXml
      ctOverrideLines presentationXml sldIdLines presRelsXml relLines
      addSlides
    rw [hs]
  · exact addSlides_map_fst s₁
  · simp only [generateSlideXml, effectiveTitle, ht, hc]

theorem claim_C5_position_only_witness :
    buildPresentation
        { totalSlides := 1,
          slides := [{ slideNumber := 1, type := "content",
                       title := "A", content := .text "c", notes := "" }] } =
      buildPresentation
        { totalSlides := 99,
          slides := [{ slideNumber := 1, type := "content",
                       title := "A", content := .text "c", notes := "" }] } ∧
    (addSlides
        { totalSlides := 1,
          slides := [{ slideNumber := 1, type := "content",
                       title := "A", content := .text "c",
                       notes := "" }] }).map Prod.fst =
      ["ppt/slides/slide1.xml"] ∧
    generateSlideXml
        { slideNumber := 1, type := "content", title := "A",
          content := .text "c", notes := "" } 1 =
      generateSlideXml
        { slideNumber := 77, type := "title", title := "A",
          content := .text "c", notes := "x" } 1 := by
  have h := claim_C5_position_only
    { totalSlides := 1,
      slides := [{ slideNumber := 1, type := "content", title := "A",
                   content := .text "c", notes := "" }] }
    { totalSlides := 99,
      slides := [{ slideNumber := 1, type := "content", title := "A",
                   content := .text "c", notes := "" }] }
    { slideNumber := 1, type := "content", title := "A",
      content := .text "c", notes := "" }
    { slideNumber := 77, type := "title", title := "A",
      content := .text "c", notes := "x" }
    1 rfl rfl rfl
  exact ⟨h.1, by rw [h.2.1]; rfl, h.2.2⟩

/-- C6: every slide XML carries a title shape bound to the `title`
placeholder whose text is the escaped `slide.title` (defaulting to
`Slide {index}` when empty); a body shape bound to the `body`
placeholder appears if and only if the slide's content text is
non-empty, where array content is joined with `"\n• "`, a bare string
is used as-is, and the body text carries one leading bullet glyph. -/
theorem claim_C6_slide_shapes (slide : Slide) (n : Nat) :
    (slideContentText slide.content = "" →
      generateSlideXml slide n =
        slideXmlA ++ escapeXml (effectiveTitle slide n) ++ slideXmlB ++
          slideXmlC) ∧
    (slideContentText slide.content ≠ "" →
      generateSlideXml slide n =
        slideXmlA ++ escapeXml (effectiveTitle slide n) ++ slideXmlB ++
          (bodyXmlA ++ "• " ++
            escapeXml (slideContentText slide.content) ++ bodyXmlB) ++
          slideXmlC) ∧
    effectiveTitle slide n =
      (if slide.title = "" then "Slide " ++ toString n else slide.title) ∧
    (∀ l, slideContentText (.items l) = String.intercalate "\n• " l) ∧
    (∀ str, slideContentText (.text str) = str) ∧
    containsStr "<p:ph type=\"title\"/>" (generateSlideXml slide n) = true ∧
    (containsStr "<p:ph type=\"body\"/>" (generateSlideXml slide n) = true ↔
      slideContentText slide.content ≠ "") := by
  have hgen : generateSlideXml slide n =
      slideXmlA ++ escapeXml (effectiveTitle slide n) ++ slideXmlB ++
        (if slideContentText slide.content = "" then ""
          else bodyShapeXml (slideContentText slide.content)) ++
        slideXmlC := rfl
  refine ⟨?_, ?_, rfl, fun l => rfl, fun str => rfl, ?_, ?_, ?_⟩
  · intro hc
    rw [hgen, if_pos hc, String.append_empty]
  · intro hc
    rw [hgen, if_neg hc]
    rfl
  · show containsSub _ _ = true
    rw [containsSub_spec]
    have hwhole : (generateSlideXml slide n).data =
        slideXmlA.data ++ ((escapeXml (effectiveTitle slide n)).data ++
          (slideXmlB.data ++
            (((if slideContentText slide.content = "" then ""
                else bodyShapeXml (slideContentText slide.content)) :
                String).data ++ slideXmlC.data))) := by
      rw [hgen]
      simp only [String.data_append, List.append_assoc]
    rw [hwhole]
    have hA : "<p:ph type=\"title\"/>".data <:+: slideXmlA.data :=
      (containsSub_spec _ _).mp (by decide)
    exact hA.trans (List.prefix_append _ _).isInfix
  · intro hb
    by_contra hcne
    have hc : slideContentText slide.content = "" := hcne
    have hwhole0 : (generateSlideXml slide n).data =
        slideXmlA.data ++ ((escapeXml (effectiveTitle slide n)).data ++
          (slideXmlB.data ++ slideXmlC.data)) := by
      rw [hgen, if_pos hc, String.append_empty]
      simp only [String.data_append, List.append_assoc]
    replace hb : containsSub "<p:ph type=\"body\"/>".data
        (generateSlideXml slide n).data = true := hb
    rw [containsSub_spec, hwhole0] at hb
    exact body_marker_absent _ ((escape_no_angle _).1) hb
  · intro hc
    show containsSub _ _ = true
    rw [containsSub_spec]
    have hwhole1 : (generateSlideXml slide n).data =
        ((slideXmlA.data ++ ((escapeXml (effectiveTitle slide n)).data ++
            slideXmlB.data)) ++ bodyXmlA.data) ++
          ("• ".data ++ ((escapeXml (slideContentText slide.content)).data ++
            (bodyXmlB.data ++ slideXmlC.data))) := by
      rw [hgen, if_neg hc]
      unfold bodyShapeXml
      simp only [String.data_append, List.append_assoc]
    rw [hwhole1]
    have hB : "<p:ph type=\"body\"/>".data <:+: bodyXmlA.data :=
      (containsSub_spec _ _).mp (by decide)
    exact hB.trans ⟨_, _, rfl⟩

/-- A slide with two content bullets. -/
def bodySlide : Slide :=
  { slideNumber := 2, type := "content", title := "Highlights",
    content := .items ["Revenue up 10%", "New markets"], notes := "" }

/-- A slide with an empty content list. -/
def titleOnlySlide : Slide :=
  { slideNumber := 1, type := "title", title := "Q1 Report",
    content := .items [], notes := "" }

theorem claim_C6_slide_shapes_witness :
    generateSlideXml bodySlide 2 =
      slideXmlA ++ escapeXml "Highlights" ++ slideXmlB ++
        (bodyXmlA ++ "• " ++
          escapeXml "Revenue up 10%\n• New markets" ++ bodyXmlB) ++
        slideXmlC ∧
    generateSlideXml titleOnlySlide 1 =
      slideXmlA ++ escapeXml "Q1 Report" ++ slideXmlB ++ slideXmlC ∧
    containsStr "<p:ph type=\"body\"/>" (generateSlideXml bodySlide 2) =
      true ∧
    containsStr "<p:ph type=\"body\"/>" (generateSlideXml titleOnlySlide 1) =
      false := by
  have h1 := claim_C6_slide_shapes bodySlide 2
  have h2 := claim_C6_slide_shapes titleOnlySlide 1
  refine ⟨?_, ?_, ?_, ?_⟩
  · exact h1.2.1 (by decide)
  · exact h2.1 (by decide)
  · exact h1.2.2.2.2.2.2.mpr (by decide)
  · exact Bool.eq_false_iff.mpr
      (fun hb => h2.2.2.2.2.2.2.mp hb (by decide))

end TextoSlides
